import Mathlib

/-!
Shallow embedding of `src/sprite.ts` (sprite-ts): the sprite data model and
the operations `createSprite`, `addSheet` (with `createSpriteCells`),
`addAnimation`, `play` (with its interval tick handler and
`getSpriteSheetForAnimation`), `stop`, `setFrame`, `onEnd`, `destroy` and
`getMemory`.

Modelling conventions:
* JavaScript `Map`s become insertion-ordered association lists
  (`Map.set` updates in place or appends; `keys().next().value` is the
  head key), matching the iteration-order semantics of JS `Map`.
* The `Set` of end callbacks becomes a duplicate-free list of opaque
  callback identifiers (`Nat`); invoking callbacks is modelled by
  returning the list of identifiers that the source would call.
* Timer handles (`setInterval` results) are integers supplied by the
  caller of `play`; `Date.now()` is an explicit `now` argument.
* The CSS background descriptor string `url('U') Xpx Ypx` produced by
  `createSpriteCells` is modelled by the record `CellDesc` holding the
  url and both signed pixel offsets.
* JS truthiness on the `string | number` animation names and on ids is
  modelled explicitly (`""` and `0` are falsy).
-/

namespace SpriteTs

/-- Animation names are `string | number` in the source (`types.ts`). -/
inductive AnimName where
  | str : String → AnimName
  | num : Int → AnimName
deriving DecidableEq

/-- JS `String(name)` applied to an animation name. -/
def animNameStr : AnimName → String
  | .str s => s
  | .num n => toString n

/-- JS truthiness of an animation name: `""` and `0` are falsy. -/
def animNameTruthy : AnimName → Bool
  | .str s => s ≠ ""
  | .num n => n ≠ 0

/-- JS truthiness of a `string | undefined` value. -/
def jsTruthyOptStr : Option String → Bool
  | some s => s ≠ ""
  | none => false

/-- JS `a || b` for `string | undefined` operands (`""` falls through). -/
def orFalsy (a b : Option String) : Option String :=
  match a with
  | some s => if s = "" then b else some s
  | none => b

/-- JS `a || b` where `a` is a possibly-absent number (`0` falls through). -/
def jsOrInt (a : Option Int) (b : Int) : Int :=
  match a with
  | some n => if n = 0 then b else n
  | none => b

/-- `Map.get`: value of the first binding of the key. -/
def mapGet (m : List (String × α)) (k : String) : Option α :=
  (m.find? (fun p => p.1 = k)).map (fun p => p.2)

/-- `Map.has`. -/
def mapHas (m : List (String × α)) (k : String) : Bool :=
  (mapGet m k).isSome

/-- `Map.set`: replace the existing binding in place, else append
(JS `Map`s keep insertion order). -/
def mapSet (m : List (String × α)) (k : String) (v : α) : List (String × α) :=
  if m.any (fun p => p.1 = k) then m.map (fun p => if p.1 = k then (k, v) else p)
  else m ++ [(k, v)]

/-- `Map.delete` (its returned flag is unused by the claims). -/
def mapDelete (m : List (String × α)) (k : String) : List (String × α) :=
  m.filter (fun p => p.1 ≠ k)

/-- One cell descriptor: the source builds the string
`url('U') Xpx Ypx`; the url and the two signed offsets are kept as
fields. -/
structure CellDesc where
  url : String
  x : Int
  y : Int
deriving DecidableEq

/-- `SpriteSheet` from `types.ts`. -/
structure SpriteSheet where
  spritesheet : String
  columns : Int
  rows : Int
  cells : List CellDesc
  width : Int
  height : Int
deriving DecidableEq

/-- `SpriteAnimation` from `types.ts`; the source field `end` is a Lean
keyword and is called `endFrame` here. -/
structure SpriteAnimation where
  name : AnimName
  start : Int
  endFrame : Int
  frames : List Int
  speed : Int
  stopped : Bool
  loop : Bool
  spritesheet : Option String
deriving DecidableEq

/-- One record of `SpriteMemory.playedAnimations`. -/
structure PlayedAnimation where
  name : String
  timestamp : Int
  length : Int
  looped : Bool
deriving DecidableEq

/-- `SpriteMemory` from `types.ts`. -/
structure SpriteMemory where
  playedAnimations : List PlayedAnimation
deriving DecidableEq

/-- The sprite's DOM element, reduced to the state the library touches:
the current CSS background and how many times `element.remove()` ran. -/
structure SpriteElement where
  background : Option CellDesc
  removedCount : Nat
deriving DecidableEq

/-- `Sprite` from `types.ts`. -/
structure Sprite where
  name : String
  width : Int
  height : Int
  element : SpriteElement
  spritesheets : List (String × SpriteSheet)
  animations : List SpriteAnimation
  activeIntervals : List (String × Int)
  animationCallbacks : List (String × List Nat)
  memory : SpriteMemory
  currentFrame : Option Int
  currentSpritesheetId : Option String
  lastPlayedAnimation : Option String
  help : Bool
deriving DecidableEq

/-- `SpriteOptions` (the fields `createSprite` reads). -/
structure SpriteOptions where
  name : String
  width : Int
  height : Int
  help : Bool
deriving DecidableEq

/-- Options of `addSheet`; `id` is the value actually used (the source
defaults it to a generated fresh string). -/
structure SheetOptions where
  columns : Option Int
  rows : Option Int
  cellWidth : Option Int
  cellHeight : Option Int
  cellSize : Option Int
  id : String
deriving DecidableEq

/-- Natural dimensions of the loaded image (`getImageDimensions` result;
image loading itself is outside the pure model). -/
structure ImageDim where
  width : Int
  height : Int
deriving DecidableEq

/-- `SpriteAnimationOptions` from `types.ts` (`end` renamed `endFrame`). -/
structure SpriteAnimationOptions where
  name : AnimName
  start : Option Int
  endFrame : Option Int
  frames : Option (List Int)
  speed : Option Int
  loop : Option Bool
  spritesheet : Option String
deriving DecidableEq

/-- The data captured by the `setInterval` closure created in `play`:
the animation's frame list and speed, the resolved spritesheet, the
effective loop flag and the original animation name. -/
structure TickCtx where
  frames : List Int
  speed : Int
  sheet : SpriteSheet
  shouldLoop : Bool
  animationName : AnimName
deriving DecidableEq

/-- Result of `play`: the new sprite state, the returned boolean, the
scheduled tick closure (when a timer was started) and the callback ids
fired by the internal `stop` call. -/
structure PlayResult where
  sprite : Sprite
  ok : Bool
  ctx : Option TickCtx
  firedCallbacks : List Nat
deriving DecidableEq

/-- Result of one interval tick: the new sprite state, the value of the
closure's `frameIndex` variable afterwards, the callback ids fired, and
whether the timer is still active (no `stop` ran on this tick). -/
structure TickResult where
  sprite : Sprite
  nextFrameIndex : Nat
  firedCallbacks : List Nat
  running : Bool
deriving DecidableEq

/-- `createSprite`: validates name, width and height, then builds the
fresh sprite (element creation is modelled as always succeeding). -/
def createSprite (options : SpriteOptions) : Option Sprite :=
  if options.name = "" then none
  else if options.width ≤ 0 then none
  else if options.height ≤ 0 then none
  else some {
    name := options.name
    width := options.width
    height := options.height
    element := { background := none, removedCount := 0 }
    spritesheets := []
    animations := []
    activeIntervals := []
    animationCallbacks := []
    memory := { playedAnimations := [] }
    currentFrame := none
    currentSpritesheetId := none
    lastPlayedAnimation := none
    help := options.help }

/-- `getSheet`: `id || currentSpritesheetId || first key`, then a lookup
only when the resulting target id is truthy. -/
def getSheet (s : Sprite) (id : Option String) : Option SpriteSheet :=
  let targetId := orFalsy id (orFalsy s.currentSpritesheetId
    (s.spritesheets.head?.map (fun p => p.1)))
  if jsTruthyOptStr targetId then mapGet s.spritesheets (targetId.getD "") else none

/-- `createSpriteCells`: row-major nested loops producing one descriptor
per cell with negated pixel offsets. -/
def createSpriteCells (sheet : SpriteSheet) : List CellDesc :=
  (List.range sheet.rows.toNat).flatMap (fun (row : Nat) =>
    (List.range sheet.columns.toNat).map (fun (col : Nat) =>
      { url := sheet.spritesheet
        x := -((col : Int) * sheet.width)
        y := -((row : Int) * sheet.height) }))

/-- `addSheet`: `cellSize || cellWidth || sprite.width`. -/
def finalCellWidth (s : Sprite) (opts : SheetOptions) : Int :=
  jsOrInt opts.cellSize (jsOrInt opts.cellWidth s.width)

/-- `addSheet`: `cellSize || cellHeight || sprite.height`. -/
def finalCellHeight (s : Sprite) (opts : SheetOptions) : Int :=
  jsOrInt opts.cellSize (jsOrInt opts.cellHeight s.height)

/-- `addSheet`: `columns || Math.floor(width / cellWidth)`.  `Int.fdiv`
is floor division, matching `Math.floor` on the quotient (the source
divides by zero only when the sprite itself has zero width). -/
def calculatedColumns (s : Sprite) (opts : SheetOptions) (dims : ImageDim) : Int :=
  jsOrInt opts.columns (Int.fdiv dims.width (finalCellWidth s opts))

/-- `addSheet`: `rows || Math.floor(height / cellHeight)`. -/
def calculatedRows (s : Sprite) (opts : SheetOptions) (dims : ImageDim) : Int :=
  jsOrInt opts.rows (Int.fdiv dims.height (finalCellHeight s opts))

/-- The `SpriteSheet` record `addSheet` builds on success: the grid
fields plus the cells generated by `createSpriteCells`. -/
def builtSheet (s : Sprite) (url : String) (opts : SheetOptions) (dims : ImageDim) :
    SpriteSheet :=
  { spritesheet := url
    columns := calculatedColumns s opts dims
    rows := calculatedRows s opts dims
    width := finalCellWidth s opts
    height := finalCellHeight s opts
    cells := createSpriteCells {
      spritesheet := url
      columns := calculatedColumns s opts dims
      rows := calculatedRows s opts dims
      width := finalCellWidth s opts
      height := finalCellHeight s opts
      cells := [] } }

/-- `addSheet` after a successful image load of size `dims`: computes
the grid, rejects non-positive grids, inserts the sheet and makes it
current when no current sheet id is truthy. -/
def addSheet (s : Sprite) (url : String) (opts : SheetOptions) (dims : ImageDim) :
    Sprite × Option String :=
  if calculatedColumns s opts dims ≤ 0 ∨ calculatedRows s opts dims ≤ 0 then (s, none)
  else
    let s1 := { s with
      spritesheets := mapSet s.spritesheets opts.id (builtSheet s url opts dims) }
    let s2 := if jsTruthyOptStr s1.currentSpritesheetId then s1
      else { s1 with currentSpritesheetId := some opts.id }
    (s2, some opts.id)

/-- The frame list `addAnimation` derives: an explicit `frames` array
(always truthy in JS, even empty) wins; else `end !== undefined` builds
the sequential range `start..end`; else the call fails. -/
def animFramesOf (o : SpriteAnimationOptions) : Option (List Int) :=
  match o.frames with
  | some fs => some fs
  | none =>
    match o.endFrame with
    | some e =>
      some ((List.range (e - o.start.getD 0 + 1).toNat).map (fun i => o.start.getD 0 + i))
    | none => none

/-- Sheet resolution in `addAnimation`:
`spritesheet ? sprite.spritesheets.get(spritesheet) : getSheet(sprite)`. -/
def resolveSheetForAdd (s : Sprite) (sheetId : Option String) : Option SpriteSheet :=
  if jsTruthyOptStr sheetId then mapGet s.spritesheets (sheetId.getD "")
  else getSheet s none

/-- `addAnimation`: duplicate-name check, frame-list derivation, sheet
resolution, frame-range validation, then append with `stopped = true`. -/
def addAnimation (s : Sprite) (o : SpriteAnimationOptions) : Sprite × Bool :=
  let start := o.start.getD 0
  if s.animations.any (fun a => a.name = o.name) then (s, false)
  else
    match animFramesOf o with
    | none => (s, false)
    | some animationFrames =>
      match resolveSheetForAdd s o.spritesheet with
      | none => (s, false)
      | some targetSheet =>
        if animationFrames.any (fun f => f < 0 ∨ f > (targetSheet.cells.length : Int) - 1)
        then (s, false)
        else
          let newAnimation : SpriteAnimation := {
            name := o.name
            start := start
            endFrame := jsOrInt o.endFrame (start + animationFrames.length - 1)
            frames := animationFrames
            speed := o.speed.getD 100
            stopped := true
            loop := o.loop.getD false
            spritesheet := if jsTruthyOptStr o.spritesheet then o.spritesheet else none }
          ({ s with animations := s.animations ++ [newAnimation] }, true)

/-- `getSpriteSheetForAnimation`: a truthy bound sheet id is looked up
directly (no fallback); else the current sheet when truthy and present;
else the first sheet value. -/
def getSpriteSheetForAnimation (s : Sprite) (a : SpriteAnimation) : Option SpriteSheet :=
  if jsTruthyOptStr a.spritesheet then mapGet s.spritesheets (a.spritesheet.getD "")
  else if jsTruthyOptStr s.currentSpritesheetId &&
      mapHas s.spritesheets (s.currentSpritesheetId.getD "") then
    mapGet s.spritesheets (s.currentSpritesheetId.getD "")
  else s.spritesheets.head?.map (fun p => p.2)

/-- `validateFrameIndex`. -/
def validateFrameIndex (index : Int) (sheet : SpriteSheet) : Bool :=
  0 ≤ index && index ≤ (sheet.cells.length : Int) - 1

/-- Sets `stopped` on the first animation with the given name, as the
source's `animations.find(...)` followed by a field assignment does. -/
def setStoppedFirst (v : Bool) : List SpriteAnimation → AnimName → List SpriteAnimation
  | [], _ => []
  | a :: rest, n =>
    if a.name = n then { a with stopped := v } :: rest
    else a :: setStoppedFirst v rest n

/-- The back-fill in `stop`: `playedAnimations.find(pa => pa.name ===
nameStr && !pa.length)` mutates the FIRST record of that name with a
(falsy) zero length, setting `length = now - timestamp`. -/
def backfillFirst : List PlayedAnimation → String → Int → List PlayedAnimation
  | [], _, _ => []
  | r :: rest, n, now =>
    if r.name = n ∧ r.length = 0 then { r with length := now - r.timestamp } :: rest
    else r :: backfillFirst rest n now

/-- First half of `stop`'s truthy branch: `clearInterval` plus deletion
of the interval entry when one exists. -/
def clearIntervalEntry (s : Sprite) (nameStr : String) : Sprite :=
  if mapHas s.activeIntervals nameStr then
    { s with activeIntervals := mapDelete s.activeIntervals nameStr }
  else s

/-- Second half of `stop`'s truthy branch once the animation was found:
mark it stopped and back-fill the history record. -/
def stopApply (now : Int) (s : Sprite) (name : AnimName) : Sprite :=
  { s with
    animations := setStoppedFirst true s.animations name
    memory := { playedAnimations :=
      backfillFirst s.memory.playedAnimations (animNameStr name) now } }

/-- The truthy-name branch of `stop`: clear the interval entry, and when
an animation of that name exists, mark it stopped, back-fill the history
record and fire the registered end callbacks (modelled as the returned
id list; the source runs each inside try/catch, so a throwing callback
affects nothing). -/
def stopOne (now : Int) (s : Sprite) (name : AnimName) : Sprite × List Nat :=
  match (clearIntervalEntry s (animNameStr name)).animations.find?
      (fun a => a.name = name) with
  | none => (clearIntervalEntry s (animNameStr name), [])
  | some _ =>
    (stopApply now (clearIntervalEntry s (animNameStr name)) name,
     (mapGet s.animationCallbacks (animNameStr name)).getD [])

/-- The stop-all branch: `activeIntervals.forEach((_, n) => stop(sprite,
n))` over the insertion-ordered keys.  Each recursive call receives a
string key; the source re-checks its truthiness, so for the key `""` it
would recurse into the stop-all branch forever (a stack overflow).  The
model applies the truthy branch to every key, so it is faithful exactly
when no interval key is the empty string; theorems below carry that
hypothesis. -/
def stopAllGo (now : Int) : List String → Sprite → Sprite × List Nat
  | [], s => (s, [])
  | k :: rest, s =>
    let r1 := stopOne now s (.str k)
    let r2 := stopAllGo now rest r1.1
    (r2.1, r1.2 ++ r2.2)

/-- `stop`: `if (name)` picks the single-animation branch, else (name
absent or falsy, such as the number `0`) the stop-all branch. -/
def stop (now : Int) (s : Sprite) (name : Option AnimName) : Sprite × List Nat :=
  match name with
  | some n =>
    if animNameTruthy n then stopOne now s n
    else stopAllGo now (s.activeIntervals.map (fun p => p.1)) s
  | none => stopAllGo now (s.activeIntervals.map (fun p => p.1)) s

/-- `play`: find the animation, resolve its sheet, stop the existing
playback, clear `stopped`, log the history record, and register the
interval (`tid` is the handle `setInterval` returned; the closure's
captured data is exposed as `TickCtx`). -/
def play (now tid : Int) (s : Sprite) (animationName : AnimName) (loop : Option Bool) :
    PlayResult :=
  match s.animations.find? (fun a => a.name = animationName) with
  | none => { sprite := s, ok := false, ctx := none, firedCallbacks := [] }
  | some animation =>
    match getSpriteSheetForAnimation s animation with
    | none => { sprite := s, ok := false, ctx := none, firedCallbacks := [] }
    | some spritesheet =>
      let stopRes := stop now s (some animationName)
      let s2 := { stopRes.1 with
        animations := setStoppedFirst false stopRes.1.animations animationName }
      let shouldLoop := match loop with
        | some b => b
        | none => animation.loop
      let newRecord : PlayedAnimation := {
        name := animNameStr animationName
        timestamp := now
        length := 0
        looped := shouldLoop }
      let s3 := { s2 with
        lastPlayedAnimation := some (animNameStr animationName)
        memory := { playedAnimations := s2.memory.playedAnimations ++ [newRecord] } }
      let s4 := { s3 with
        activeIntervals := mapSet s3.activeIntervals (animNameStr animationName) tid }
      { sprite := s4
        ok := true
        ctx := some { frames := animation.frames
                      speed := animation.speed
                      sheet := spritesheet
                      shouldLoop := shouldLoop
                      animationName := animationName }
        firedCallbacks := stopRes.2 }

/-- The display write of one tick: `element.style.background =
spritesheet.cells[currentFrameNumber]; sprite.currentFrame =
currentFrameNumber`. -/
def tickDisplay (ctx : TickCtx) (currentFrameNumber : Int) (s : Sprite) : Sprite :=
  { s with
    element := { s.element with
      background := ctx.sheet.cells.get? currentFrameNumber.toNat }
    currentFrame := some currentFrameNumber }

/-- One firing of the interval callback created in `play`: read the
frame at the cursor, self-stop on an invalid frame, otherwise write the
background and `currentFrame`, advance the cursor and wrap or stop at
the end of the frame list. -/
def tick (now : Int) (ctx : TickCtx) (frameIndex : Nat) (s : Sprite) : TickResult :=
  match ctx.frames.get? frameIndex with
  | none =>
    let st := stop now s (some ctx.animationName)
    { sprite := st.1, nextFrameIndex := frameIndex, firedCallbacks := st.2, running := false }
  | some currentFrameNumber =>
    if validateFrameIndex currentFrameNumber ctx.sheet = false then
      let st := stop now s (some ctx.animationName)
      { sprite := st.1, nextFrameIndex := frameIndex, firedCallbacks := st.2, running := false }
    else
      let s1 := tickDisplay ctx currentFrameNumber s
      if frameIndex + 1 ≥ ctx.frames.length then
        if ctx.shouldLoop then
          { sprite := s1, nextFrameIndex := 0, firedCallbacks := [], running := true }
        else
          let st := stop now s1 (some ctx.animationName)
          { sprite := st.1, nextFrameIndex := frameIndex + 1, firedCallbacks := st.2,
            running := false }
      else
        { sprite := s1, nextFrameIndex := frameIndex + 1, firedCallbacks := [], running := true }

/-- `setFrame`: resolve `spritesheetId || currentSpritesheetId`, look it
up, validate the index, then write background, `currentFrame` and
`currentSpritesheetId`. -/
def setFrame (s : Sprite) (index : Int) (spritesheetId : Option String) : Sprite × Bool :=
  let targetSpritesheetId := orFalsy spritesheetId s.currentSpritesheetId
  if jsTruthyOptStr targetSpritesheetId = false then (s, false)
  else
    let tid := targetSpritesheetId.getD ""
    match mapGet s.spritesheets tid with
    | none => (s, false)
    | some spritesheet =>
      if validateFrameIndex index spritesheet = false then (s, false)
      else
        ({ s with
            element := { s.element with background := spritesheet.cells.get? index.toNat }
            currentFrame := some index
            currentSpritesheetId := some tid }, true)

/-- `onEnd`: register a callback id in the per-name set; returns whether
registration succeeded (the source returns an unregister closure). -/
def onEnd (s : Sprite) (name : AnimName) (cb : Nat) : Sprite × Bool :=
  match s.animations.find? (fun a => a.name = name) with
  | none => (s, false)
  | some _ =>
    let nameStr := animNameStr name
    let cur := (mapGet s.animationCallbacks nameStr).getD []
    let cur2 := if cb ∈ cur then cur else cur ++ [cb]
    ({ s with animationCallbacks := mapSet s.animationCallbacks nameStr cur2 }, true)

/-- `destroy`: clear every timer and the interval map, clear callback
and sheet maps, truncate the playback log, and run `element.remove()`
once.  The source does NOT touch `sprite.animations`. -/
def destroy (s : Sprite) : Sprite :=
  { s with
    activeIntervals := []
    animationCallbacks := []
    spritesheets := []
    memory := { playedAnimations := [] }
    element := { s.element with removedCount := s.element.removedCount + 1 } }

/-- `getMemory` as a pure value: the record returned carries the same
playback records (`{...memory, playedAnimations: [...]}`). -/
def getMemory (s : Sprite) : SpriteMemory :=
  { playedAnimations := s.memory.playedAnimations }

/-- Reference store for arrays of playback records: models which JS
array object a reference points at, for the aliasing claim about
`getMemory`. -/
abbrev MemStore := List (Nat × List PlayedAnimation)

/-- Dereference an array reference. -/
def readRef (st : MemStore) (r : Nat) : Option (List PlayedAnimation) :=
  (st.find? (fun p => p.1 = r)).map (fun p => p.2)

/-- In-place mutation of the array object behind a reference. -/
def writeRef (st : MemStore) (r : Nat) (v : List PlayedAnimation) : MemStore :=
  st.map (fun p => if p.1 = r then (r, v) else p)

/-- A reference unused by the store (JS array literals always allocate
fresh objects). -/
def freshRef (st : MemStore) : Nat :=
  (st.map (fun p => p.1)).foldr max 0 + 1

/-- `getMemory`'s copy `[...sprite.memory.playedAnimations]` in the
reference model: allocate a fresh array holding the same records as the
sprite's internal array `memRef` and return the new reference. -/
def getMemoryHeap (st : MemStore) (memRef : Nat) : MemStore × Nat :=
  let r := freshRef st
  (st ++ [(r, (readRef st memRef).getD [])], r)

/-! Concrete states used to instantiate the theorems below. -/

/-- A spritesheet with a single cell. -/
def sheet1 : SpriteSheet :=
  { spritesheet := "one.png", columns := 1, rows := 1,
    cells := [{ url := "one.png", x := 0, y := 0 }], width := 32, height := 32 }

/-- A spritesheet with four cells in one row. -/
def sheet4 : SpriteSheet :=
  { spritesheet := "four.png", columns := 4, rows := 1,
    cells := [{ url := "four.png", x := 0, y := 0 },
              { url := "four.png", x := -32, y := 0 },
              { url := "four.png", x := -64, y := 0 },
              { url := "four.png", x := -96, y := 0 }],
    width := 32, height := 32 }

/-- A registered non-looping animation named "walk" showing frame 3. -/
def walkAnim : SpriteAnimation :=
  { name := .str "walk", start := 0, endFrame := 3, frames := [3],
    speed := 100, stopped := true, loop := false, spritesheet := none }

/-- A registered non-looping animation named "a" showing frame 0. -/
def animA : SpriteAnimation :=
  { name := .str "a", start := 0, endFrame := 0, frames := [0],
    speed := 100, stopped := true, loop := false, spritesheet := none }

/-- A registered animation with the numeric name `0`. -/
def zeroAnim : SpriteAnimation :=
  { name := .num 0, start := 0, endFrame := 0, frames := [0],
    speed := 100, stopped := true, loop := false, spritesheet := none }

/-- An empty sprite with no sheets, animations or playback state. -/
def baseSprite : Sprite :=
  { name := "t", width := 32, height := 32,
    element := { background := none, removedCount := 0 },
    spritesheets := [], animations := [], activeIntervals := [],
    animationCallbacks := [], memory := { playedAnimations := [] },
    currentFrame := none, currentSpritesheetId := none,
    lastPlayedAnimation := none, help := false }

/-- "walk" is registered, currently playing (interval handle 9), and has
end callback 3 registered. -/
def c1Sprite : Sprite :=
  { baseSprite with
    spritesheets := [("b", sheet1)], currentSpritesheetId := some "b",
    animations := [walkAnim], activeIntervals := [("walk", 9)],
    animationCallbacks := [("walk", [3])] }

/-- "a" is registered but NOT playing; end callback 5 is registered. -/
def c2Sprite : Sprite :=
  { baseSprite with
    animations := [animA],
    animationCallbacks := [("a", [5])] }

/-- "a" is playing and the log holds two unfinished records of name "a"
(both with `length = 0`, as two `play` calls in the same millisecond
produce). -/
def c3Sprite : Sprite :=
  { baseSprite with
    animations := [animA], activeIntervals := [("a", 2)],
    memory := { playedAnimations :=
      [{ name := "a", timestamp := 100, length := 0, looped := false },
       { name := "a", timestamp := 100, length := 0, looped := false }] } }

/-- A sprite with one registered animation, for `destroy`. -/
def c4Sprite : Sprite :=
  { baseSprite with animations := [animA] }

/-- Two sheets; the current one ("b") has a single cell, while "walk"
shows frame 3 (valid only on sheet "a"). -/
def c5Sprite : Sprite :=
  { baseSprite with
    spritesheets := [("a", sheet4), ("b", sheet1)],
    currentSpritesheetId := some "b",
    animations := [walkAnim] }

/-- The only sheet is registered under the falsy id `""`, which is also
the current sheet id. -/
def c6Sprite : Sprite :=
  { baseSprite with
    spritesheets := [("", sheet1)],
    currentSpritesheetId := some "" }

/-- The tick closure `play 100 7 c5Sprite "walk" none` creates: frame
list [3] resolved against the one-cell sheet "b". -/
def c5Ctx : TickCtx :=
  { frames := [3], speed := 100, sheet := sheet1, shouldLoop := false,
    animationName := .str "walk" }

/-- Registration options for a fresh animation "a" covering frame 0,
with no explicit sheet binding. -/
def c6Opts : SpriteAnimationOptions :=
  { name := .str "a", start := none, endFrame := some 0, frames := none,
    speed := none, loop := none, spritesheet := none }

/-- Sheet options passing the explicit (falsy) value `columns = 0`. -/
def c7Opts : SheetOptions :=
  { columns := some 0, rows := none, cellWidth := none, cellHeight := none,
    cellSize := none, id := "s" }

/-- "walk" (string name) and `0` (numeric name) are both registered and
both playing. -/
def c10Sprite : Sprite :=
  { baseSprite with
    spritesheets := [("b", sheet1)], currentSpritesheetId := some "b",
    animations := [walkAnim, zeroAnim],
    activeIntervals := [("walk", 9), ("0", 4)] }

/-! Helper lemmas about the map model and the stop path. -/

theorem mapGet_eq_none_iff (m : List (String × α)) (k : String) :
    mapGet m k = none ↔ ∀ p ∈ m, p.1 ≠ k := by
  simp [mapGet, List.find?_eq_none]

theorem mapDelete_of_not_has (m : List (String × α)) (k : String)
    (h : mapHas m k = false) : mapDelete m k = m := by
  rw [mapDelete, List.filter_eq_self]
  intro p hp
  have h2 := (mapGet_eq_none_iff m k).mp (by
    simpa [mapHas, Option.isSome_iff_ne_none] using h)
  simpa using h2 p hp

theorem mapGet_append_left (m l : List (String × α)) (k : String)
    (h : (mapGet m k).isSome) : mapGet (m ++ l) k = mapGet m k := by
  simp only [mapGet, List.find?_append]
  cases hf : m.find? (fun p => p.1 = k) with
  | none => simp [mapGet, hf] at h
  | some p => simp [Option.or]

theorem mapGet_mapSet_self (m : List (String × α)) (k : String) (v : α) :
    mapGet (mapSet m k v) k = some v := by
  rw [mapSet]
  by_cases h : m.any (fun p => p.1 = k)
  · simp only [h, if_true]
    induction m with
    | nil => simp at h
    | cons a rest ih =>
      by_cases ha : a.1 = k
      · simp [mapGet, ha]
      · have h2 : rest.any (fun p => p.1 = k) = true := by
          simpa [List.any_cons, ha] using h
        simp only [List.map_cons, if_neg ha, mapGet]
        rw [List.find?_cons_of_neg _ (by simpa using ha)]
        exact ih h2
  · simp only [h, if_false]
    have hnone : m.find? (fun p => p.1 = k) = none := by
      rw [List.find?_eq_none]
      intro x hx
      simp only [List.any_eq_true, not_exists] at h
      intro hk
      exact h x ⟨hx, by simpa using hk⟩
    simp [mapGet, List.find?_append, hnone, Option.or]

@[simp] theorem clearIntervalEntry_animations (s : Sprite) (k : String) :
    (clearIntervalEntry s k).animations = s.animations := by
  rw [clearIntervalEntry]; split <;> rfl

@[simp] theorem clearIntervalEntry_memory (s : Sprite) (k : String) :
    (clearIntervalEntry s k).memory = s.memory := by
  rw [clearIntervalEntry]; split <;> rfl

@[simp] theorem clearIntervalEntry_callbacks (s : Sprite) (k : String) :
    (clearIntervalEntry s k).animationCallbacks = s.animationCallbacks := by
  rw [clearIntervalEntry]; split <;> rfl

@[simp] theorem clearIntervalEntry_spritesheets (s : Sprite) (k : String) :
    (clearIntervalEntry s k).spritesheets = s.spritesheets := by
  rw [clearIntervalEntry]; split <;> rfl

@[simp] theorem clearIntervalEntry_element (s : Sprite) (k : String) :
    (clearIntervalEntry s k).element = s.element := by
  rw [clearIntervalEntry]; split <;> rfl

@[simp] theorem clearIntervalEntry_currentFrame (s : Sprite) (k : String) :
    (clearIntervalEntry s k).currentFrame = s.currentFrame := by
  rw [clearIntervalEntry]; split <;> rfl

@[simp] theorem clearIntervalEntry_intervals (s : Sprite) (k : String) :
    (clearIntervalEntry s k).activeIntervals = mapDelete s.activeIntervals k := by
  rw [clearIntervalEntry]
  split
  · rfl
  · next h => rw [mapDelete_of_not_has _ _ (by simpa using h)]

theorem find?_setStoppedFirst_same (v : Bool) (l : List SpriteAnimation) (n : AnimName) :
    (setStoppedFirst v l n).find? (fun a => a.name = n) =
      (l.find? (fun a => a.name = n)).map (fun a => { a with stopped := v }) := by
  induction l with
  | nil => rfl
  | cons a rest ih =>
    by_cases h : a.name = n
    · rw [setStoppedFirst, if_pos h]
      rw [List.find?_cons_of_pos _ (by simpa using h),
        List.find?_cons_of_pos _ (by simpa using h)]
      rfl
    · rw [setStoppedFirst, if_neg h]
      rw [List.find?_cons_of_neg _ (by simpa using h),
        List.find?_cons_of_neg _ (by simpa using h)]
      exact ih

theorem find?_setStoppedFirst_isSome (v : Bool) (l : List SpriteAnimation) (m n : AnimName) :
    ((setStoppedFirst v l m).find? (fun a => a.name = n)).isSome =
      (l.find? (fun a => a.name = n)).isSome := by
  induction l with
  | nil => rfl
  | cons a rest ih =>
    by_cases hm : a.name = m
    · rw [setStoppedFirst, if_pos hm]
      by_cases hn : a.name = n
      · rw [List.find?_cons_of_pos _ (by simpa using hn),
          List.find?_cons_of_pos _ (by simpa using hn)]
        rfl
      · rw [List.find?_cons_of_neg _ (by simpa using hn),
          List.find?_cons_of_neg _ (by simpa using hn)]
    · rw [setStoppedFirst, if_neg hm]
      by_cases hn : a.name = n
      · rw [List.find?_cons_of_pos _ (by simpa using hn),
          List.find?_cons_of_pos _ (by simpa using hn)]
      · rw [List.find?_cons_of_neg _ (by simpa using hn),
          List.find?_cons_of_neg _ (by simpa using hn)]
        exact ih

@[simp] theorem stopApply_callbacks (now : Int) (s : Sprite) (n : AnimName) :
    (stopApply now s n).animationCallbacks = s.animationCallbacks := rfl

@[simp] theorem stopApply_intervals (now : Int) (s : Sprite) (n : AnimName) :
    (stopApply now s n).activeIntervals = s.activeIntervals := rfl

@[simp] theorem stopApply_spritesheets (now : Int) (s : Sprite) (n : AnimName) :
    (stopApply now s n).spritesheets = s.spritesheets := rfl

@[simp] theorem stopApply_element (now : Int) (s : Sprite) (n : AnimName) :
    (stopApply now s n).element = s.element := rfl

theorem stopOne_intervals (now : Int) (s : Sprite) (n : AnimName) :
    (stopOne now s n).1.activeIntervals = mapDelete s.activeIntervals (animNameStr n) := by
  rw [stopOne]
  cases h : (clearIntervalEntry s (animNameStr n)).animations.find?
      (fun a => a.name = n) <;> simp

theorem stopOne_callbacks_map (now : Int) (s : Sprite) (n : AnimName) :
    (stopOne now s n).1.animationCallbacks = s.animationCallbacks := by
  rw [stopOne]
  cases h : (clearIntervalEntry s (animNameStr n)).animations.find?
      (fun a => a.name = n) <;> simp

theorem stopOne_spritesheets (now : Int) (s : Sprite) (n : AnimName) :
    (stopOne now s n).1.spritesheets = s.spritesheets := by
  rw [stopOne]
  cases h : (clearIntervalEntry s (animNameStr n)).animations.find?
      (fun a => a.name = n) <;> simp

theorem stopOne_find_isSome (now : Int) (s : Sprite) (m n : AnimName) :
    ((stopOne now s m).1.animations.find? (fun a => a.name = n)).isSome =
      (s.animations.find? (fun a => a.name = n)).isSome := by
  rw [stopOne]
  cases h : (clearIntervalEntry s (animNameStr m)).animations.find?
      (fun a => a.name = m) <;>
    simp [stopApply, find?_setStoppedFirst_isSome]

theorem stopOne_fired (now : Int) (s : Sprite) (n : AnimName) :
    (stopOne now s n).2 =
      if (s.animations.find? (fun a => a.name = n)).isSome then
        (mapGet s.animationCallbacks (animNameStr n)).getD []
      else [] := by
  rw [stopOne]
  cases h : (clearIntervalEntry s (animNameStr n)).animations.find?
      (fun a => a.name = n) with
  | none => simp only [clearIntervalEntry_animations] at h; simp [h]
  | some a => simp only [clearIntervalEntry_animations] at h; simp [h]

theorem stopAllGo_callbacks_map (now : Int) (ks : List String) (s : Sprite) :
    (stopAllGo now ks s).1.animationCallbacks = s.animationCallbacks := by
  induction ks generalizing s with
  | nil => rfl
  | cons k rest ih => rw [stopAllGo]; rw [ih, stopOne_callbacks_map]

theorem stopAllGo_spritesheets (now : Int) (ks : List String) (s : Sprite) :
    (stopAllGo now ks s).1.spritesheets = s.spritesheets := by
  induction ks generalizing s with
  | nil => rfl
  | cons k rest ih => rw [stopAllGo]; rw [ih, stopOne_spritesheets]

theorem stopAllGo_find_isSome (now : Int) (ks : List String) (s : Sprite) (n : AnimName) :
    ((stopAllGo now ks s).1.animations.find? (fun a => a.name = n)).isSome =
      (s.animations.find? (fun a => a.name = n)).isSome := by
  induction ks generalizing s with
  | nil => rfl
  | cons k rest ih => rw [stopAllGo]; rw [ih, stopOne_find_isSome]

theorem stop_find_isSome (now : Int) (s : Sprite) (x : Option AnimName) (n : AnimName) :
    ((stop now s x).1.animations.find? (fun a => a.name = n)).isSome =
      (s.animations.find? (fun a => a.name = n)).isSome := by
  cases x with
  | none => exact stopAllGo_find_isSome now _ s n
  | some m =>
    simp only [stop]
    by_cases ht : animNameTruthy m = true
    · rw [if_pos ht]; exact stopOne_find_isSome now s m n
    · rw [if_neg ht]; exact stopAllGo_find_isSome now _ s n

theorem stop_callbacks_map (now : Int) (s : Sprite) (x : Option AnimName) :
    (stop now s x).1.animationCallbacks = s.animationCallbacks := by
  cases x with
  | none => exact stopAllGo_callbacks_map now _ s
  | some m =>
    simp only [stop]
    by_cases ht : animNameTruthy m = true
    · rw [if_pos ht]; exact stopOne_callbacks_map now s m
    · rw [if_neg ht]; exact stopAllGo_callbacks_map now _ s

theorem backfillFirst_of_none (l : List PlayedAnimation) (n : String) (now : Int)
    (h : ∀ r ∈ l, r.name = n → r.length ≠ 0) : backfillFirst l n now = l := by
  induction l with
  | nil => rfl
  | cons r rest ih =>
    rw [backfillFirst]
    rw [if_neg (by
      rintro ⟨h1, h2⟩
      exact h r (by simp) h1 h2)]
    rw [ih (fun x hx => h x (by simp [hx]))]

theorem backfillFirst_split (pre : List PlayedAnimation) (r : PlayedAnimation)
    (post : List PlayedAnimation) (n : String) (now : Int)
    (hpre : ∀ x ∈ pre, x.name = n → x.length ≠ 0)
    (h1 : r.name = n) (h2 : r.length = 0) :
    backfillFirst (pre ++ r :: post) n now =
      pre ++ { r with length := now - r.timestamp } :: post := by
  induction pre with
  | nil =>
    rw [List.nil_append, backfillFirst, if_pos ⟨h1, h2⟩, List.nil_append]
  | cons x rest ih =>
    rw [List.cons_append, backfillFirst]
    rw [if_neg (by
      rintro ⟨hx1, hx2⟩
      exact hpre x (by simp) hx1 hx2)]
    rw [ih (fun y hy => hpre y (by simp [hy]))]
    rw [List.cons_append]

theorem stopAllGo_intervals (now : Int) (ks : List String) (s : Sprite) :
    (stopAllGo now ks s).1.activeIntervals =
      ks.foldl (fun m k => mapDelete m k) s.activeIntervals := by
  induction ks generalizing s with
  | nil => rfl
  | cons k rest ih =>
    rw [stopAllGo]
    rw [ih, List.foldl_cons, stopOne_intervals]
    rfl

theorem foldl_mapDelete_all (ks : List String) (m : List (String × Int))
    (h : ∀ p ∈ m, p.1 ∈ ks) :
    ks.foldl (fun m k => mapDelete m k) m = [] := by
  induction ks generalizing m with
  | nil =>
    cases m with
    | nil => rfl
    | cons p rest => exact absurd (h p (by simp)) (by simp)
  | cons k rest ih =>
    rw [List.foldl_cons]
    refine ih _ ?_
    intro p hp
    have hm := List.mem_filter.mp hp
    have := h p hm.1
    rcases List.mem_cons.mp this with he | ht
    · exfalso
      have : p.1 ≠ k := by simpa using hm.2
      exact this he
    · exact ht

theorem le_foldr_max (l : List Nat) (x : Nat) (hx : x ∈ l) : x ≤ l.foldr max 0 := by
  induction l with
  | nil => cases hx
  | cons a t ih =>
    rcases List.mem_cons.mp hx with rfl | h
    · exact Nat.le_max_left _ _
    · exact Nat.le_trans (ih h) (Nat.le_max_right _ _)

theorem mem_keys_lt_freshRef (st : MemStore) (r : Nat) (h : r ∈ st.map (fun p => p.1)) :
    r < freshRef st := by
  rw [freshRef]
  exact Nat.lt_succ_of_le (le_foldr_max _ _ h)

theorem readRef_isSome_of_mem (st : MemStore) (r : Nat) (h : r ∈ st.map (fun p => p.1)) :
    (readRef st r).isSome = true := by
  rcases List.mem_map.mp h with ⟨p, hp, hpr⟩
  cases hf : st.find? (fun p => p.1 = r) with
  | none =>
    rw [List.find?_eq_none] at hf
    exact absurd (by simpa using hpr) (by simpa using hf p hp)
  | some x => simp [readRef, hf]

theorem readRef_append_fresh (st : MemStore) (r : Nat) (v : List PlayedAnimation)
    (h : ∀ p ∈ st, p.1 ≠ r) : readRef (st ++ [(r, v)]) r = some v := by
  have hnone : st.find? (fun p => p.1 = r) = none := by
    rw [List.find?_eq_none]
    intro p hp
    simpa using h p hp
  simp [readRef, List.find?_append, hnone, Option.or]

theorem readRef_append_left (st l : MemStore) (r : Nat)
    (h : (readRef st r).isSome) : readRef (st ++ l) r = readRef st r := by
  simp only [readRef, List.find?_append]
  cases hf : st.find? (fun p => p.1 = r) with
  | none => simp [readRef, hf] at h
  | some p => simp [Option.or]

theorem readRef_writeRef_ne (st : MemStore) (q r : Nat) (v : List PlayedAnimation)
    (h : r ≠ q) : readRef (writeRef st q v) r = readRef st r := by
  induction st with
  | nil => rfl
  | cons p rest ih =>
    rw [writeRef, List.map_cons]
    by_cases hp : p.1 = q
    · have hqr : ¬((q, v).1 = r) := fun hq => h (by simpa using hq.symm)
      have hpr : ¬(p.1 = r) := fun hr => h (by rw [← hr, hp])
      rw [if_pos hp]
      unfold readRef
      rw [List.find?_cons_of_neg _ (by simpa using hqr),
        List.find?_cons_of_neg _ (by simpa using hpr)]
      exact ih
    · rw [if_neg hp]
      unfold readRef
      by_cases hpr : p.1 = r
      · rw [List.find?_cons_of_pos _ (by simpa using hpr),
          List.find?_cons_of_pos _ (by simpa using hpr)]
      · rw [List.find?_cons_of_neg _ (by simpa using hpr),
          List.find?_cons_of_neg _ (by simpa using hpr)]
        exact ih

theorem flatMapRange_length (n m : Nat) (f : Nat → Nat → CellDesc) :
    ((List.range n).flatMap (fun r => (List.range m).map (f r))).length = n * m := by
  induction n with
  | zero => simp
  | succ n ih =>
    rw [List.range_succ, List.flatMap_append]
    simp [ih, Nat.succ_mul]

theorem flatMapRange_get (n m : Nat) (f : Nat → Nat → CellDesc) (row col : Nat)
    (hr : row < n) (hc : col < m) :
    ((List.range n).flatMap (fun r => (List.range m).map (f r))).get? (row * m + col) =
      some (f row col) := by
  induction n with
  | zero => exact absurd hr (Nat.not_lt_zero row)
  | succ n ih =>
    rw [List.range_succ, List.flatMap_append]
    rcases Nat.lt_succ_iff_lt_or_eq.mp hr with h | rfl
    · rw [List.get?_append]
      · exact ih h
      · rw [flatMapRange_length]
        calc row * m + col < row * m + m := by omega
          _ = (row + 1) * m := by ring
          _ ≤ n * m := Nat.mul_le_mul_right m h
    · rw [List.get?_append_right (by rw [flatMapRange_length]; omega)]
      rw [flatMapRange_length]
      have hcol : row * m + col - row * m = col := by omega
      rw [hcol]
      rw [List.flatMap_cons, List.flatMap_nil, List.append_nil]
      rw [List.get?_map, List.get?_range hc]
      rfl

theorem clearIntervalEntry_of_not_has (s : Sprite) (k : String)
    (h : mapHas s.activeIntervals k = false) : clearIntervalEntry s k = s := by
  rw [clearIntervalEntry, if_neg (by simp [h])]

@[simp] theorem tickDisplay_animations (ctx : TickCtx) (cf : Int) (s : Sprite) :
    (tickDisplay ctx cf s).animations = s.animations := rfl

@[simp] theorem tickDisplay_callbacks (ctx : TickCtx) (cf : Int) (s : Sprite) :
    (tickDisplay ctx cf s).animationCallbacks = s.animationCallbacks := rfl

/-! The claims. -/

/-- C1 counterexample: "walk" is registered, currently playing and has
end callback 3 registered; an explicit caller `stop` call nevertheless
invokes the callback, contradicting the claim that end callbacks are
"not invoked when the caller explicitly calls stop on that animation". -/
theorem stop_explicit_fires_callbacks_cex :
    mapHas c1Sprite.activeIntervals "walk" = true ∧
    (stop 50 c1Sprite (some (AnimName.str "walk"))).2 = [3] := by decide

/-- C1 (amended): for a truthy name naming a registered animation, every
`stop` call — the explicit caller call just as much as the internal call
made by the tick handler on natural (non-looping) completion — invokes
exactly the end callbacks registered for that name; the second conjunct
shows the natural-completion tick routes into the same callback firing. -/
theorem callbacks_fire_on_every_stop (now : Int) (s : Sprite) (name : AnimName)
    (h1 : animNameTruthy name = true)
    (h2 : (s.animations.find? (fun a => a.name = name)).isSome = true) :
    (stop now s (some name)).2 =
      (mapGet s.animationCallbacks (animNameStr name)).getD [] ∧
    (∀ (ctx : TickCtx) (fi : Nat) (cf : Int) (s2 : Sprite),
      ctx.animationName = name →
      ctx.frames.get? fi = some cf →
      validateFrameIndex cf ctx.sheet = true →
      ctx.frames.length ≤ fi + 1 →
      ctx.shouldLoop = false →
      (s2.animations.find? (fun a => a.name = name)).isSome = true →
      (tick now ctx fi s2).firedCallbacks =
        (mapGet s2.animationCallbacks (animNameStr name)).getD []) := by
  constructor
  · simp only [stop, if_pos h1]
    rw [stopOne_fired, if_pos h2]
  · intro ctx fi cf s2 hn hget hval hlen hloop hfound
    simp only [tick, hget]
    rw [if_neg (by simp [hval])]
    rw [if_pos hlen]
    rw [if_neg (by simp [hloop])]
    simp only [hn]
    show (stop now (tickDisplay ctx cf s2) (some name)).2 = _
    simp only [stop, if_pos h1]
    rw [stopOne_fired]
    rw [tickDisplay_animations, tickDisplay_callbacks, if_pos hfound]

/-- C1 witness: instantiating the amended theorem on the concrete
playing sprite: the explicit stop fires exactly the registered set. -/
theorem callbacks_fire_on_every_stop_witness :
    (stop 50 c1Sprite (some (AnimName.str "walk"))).2 =
      (mapGet c1Sprite.animationCallbacks "walk").getD [] :=
  (callbacks_fire_on_every_stop 50 c1Sprite (AnimName.str "walk")
    (by decide) (by decide)).1

/-- C2 counterexample: "a" is registered but has no `activeIntervals`
entry (it is not playing), yet `stop` fires its registered end callback
(id 5), so the call is not the claimed no-op. -/
theorem stop_nonplaying_fires_callbacks_cex :
    mapHas c2Sprite.activeIntervals "a" = false ∧
    (stop 0 c2Sprite (some (AnimName.str "a"))).2 = [5] := by decide

/-- C2 (amended): `stop` on a truthy name that has no interval entry AND
names no registered animation is a no-op: the sprite is unchanged, no
callbacks fire, and (being total) nothing is thrown.  For a registered
but non-playing animation the call is NOT a no-op: it still marks the
animation stopped, back-fills the history and fires end callbacks. -/
theorem stop_unknown_name_noop (now : Int) (s : Sprite) (name : AnimName)
    (h1 : animNameTruthy name = true)
    (h2 : mapHas s.activeIntervals (animNameStr name) = false)
    (h3 : s.animations.find? (fun a => a.name = name) = none) :
    stop now s (some name) = (s, []) := by
  simp only [stop, if_pos h1, stopOne]
  rw [clearIntervalEntry_of_not_has s _ h2]
  rw [h3]

/-- C2 witness: stopping a name that is neither playing nor registered
leaves the empty sprite untouched and fires nothing. -/
theorem stop_unknown_name_noop_witness :
    stop 3 baseSprite (some (AnimName.str "ghost")) = (baseSprite, []) :=
  stop_unknown_name_noop 3 baseSprite (AnimName.str "ghost")
    (by decide) (by decide) (by decide)

/-- C3 counterexample: two unfinished records of "a" are in the log (the
later one is the most recent); stopping at time 105 back-fills the
EARLIEST record (position 0 gets length 5) and leaves the most recent
one at length 0 — the claim says the latest zero-length record is the
one filled. -/
theorem stop_backfills_earliest_cex :
    (stop 105 c3Sprite (some (AnimName.str "a"))).1.memory.playedAnimations =
      [{ name := "a", timestamp := 100, length := 5, looped := false },
       { name := "a", timestamp := 100, length := 0, looped := false }] := by decide

/-- C3 (amended): when `stop` ends a registered animation, it back-fills
the EARLIEST record of that name whose length is still 0 (the first
match of `playedAnimations.find`) with the elapsed time since that
record's timestamp; all other records are unchanged. -/
theorem stop_backfill_earliest_unfinished (now : Int) (s : Sprite) (name : AnimName)
    (pre post : List PlayedAnimation) (r : PlayedAnimation)
    (h1 : animNameTruthy name = true)
    (h2 : (s.animations.find? (fun a => a.name = name)).isSome = true)
    (hsplit : s.memory.playedAnimations = pre ++ r :: post)
    (hpre : ∀ x ∈ pre, x.name = animNameStr name → x.length ≠ 0)
    (hr1 : r.name = animNameStr name) (hr2 : r.length = 0) :
    (stop now s (some name)).1.memory.playedAnimations =
      pre ++ { r with length := now - r.timestamp } :: post := by
  simp only [stop, if_pos h1]
  rw [stopOne]
  cases hf : (clearIntervalEntry s (animNameStr name)).animations.find?
      (fun a => a.name = name) with
  | none =>
    rw [clearIntervalEntry_animations] at hf
    rw [hf] at h2
    simp at h2
  | some a =>
    show (stopApply now (clearIntervalEntry s (animNameStr name)) name).memory.playedAnimations = _
    simp only [stopApply, clearIntervalEntry_memory]
    rw [hsplit]
    exact backfillFirst_split pre r post (animNameStr name) now hpre hr1 hr2

/-- C3 witness: on the two-record log the earliest record is filled with
the elapsed 5 milliseconds. -/
theorem stop_backfill_earliest_unfinished_witness :
    (stop 105 c3Sprite (some (AnimName.str "a"))).1.memory.playedAnimations =
      [] ++ { name := "a", timestamp := 100, length := 105 - 100, looped := false } ::
        [{ name := "a", timestamp := 100, length := 0, looped := false }] :=
  stop_backfill_earliest_unfinished 105 c3Sprite (AnimName.str "a") []
    [{ name := "a", timestamp := 100, length := 0, looped := false }]
    { name := "a", timestamp := 100, length := 0, looped := false }
    (by decide) (by decide) rfl (by intro x hx; simp at hx) rfl rfl

/-- C4 counterexample: `destroy` is claimed to empty the `animations`
collection, but on a sprite with one registered animation the list
survives `destroy` unchanged. -/
theorem destroy_keeps_animations_cex :
    (destroy c4Sprite).animations = [animA] ∧ [animA] ≠ ([] : List SpriteAnimation) := by
  decide

/-- C4 (amended): `destroy` clears every timer (the interval map becomes
empty), empties `spritesheets` and `animationCallbacks`, truncates
`memory.playedAnimations` and triggers element removal exactly once; the
`animations` list is left unchanged (the source never clears it). -/
theorem destroy_spec (s : Sprite) :
    (destroy s).spritesheets = [] ∧
    (destroy s).activeIntervals = [] ∧
    (destroy s).animationCallbacks = [] ∧
    (destroy s).memory.playedAnimations = [] ∧
    (destroy s).element.removedCount = s.element.removedCount + 1 ∧
    (destroy s).animations = s.animations :=
  ⟨rfl, rfl, rfl, rfl, rfl, rfl⟩

/-- C8: failing `setFrame` calls (negative index, or an explicit unknown
sheet id) return `false` with the sprite unchanged, and `createSprite`
rejects an empty name or non-positive dimensions with `none` and no
state; the embedding is total, so no call throws. -/
theorem failfast_no_mutation :
    (∀ (s : Sprite) (id : Option String), setFrame s (-1) id = (s, false)) ∧
    (∀ (s : Sprite) (i : Int) (id : String), id ≠ "" →
      mapGet s.spritesheets id = none → setFrame s i (some id) = (s, false)) ∧
    (∀ o : SpriteOptions, o.name = "" → createSprite o = none) ∧
    (∀ o : SpriteOptions, o.width ≤ 0 → createSprite o = none) ∧
    (∀ o : SpriteOptions, o.height ≤ 0 → createSprite o = none) := by
  refine ⟨?_, ?_, ?_, ?_, ?_⟩
  · intro s id
    simp only [setFrame]
    by_cases ht : jsTruthyOptStr (orFalsy id s.currentSpritesheetId) = false
    · rw [if_pos ht]
    · rw [if_neg ht]
      cases hm : mapGet s.spritesheets ((orFalsy id s.currentSpritesheetId).getD "") with
      | none => rfl
      | some sheet =>
        have hv : validateFrameIndex (-1) sheet = false := by
          rw [validateFrameIndex, decide_eq_false (by omega : ¬((0 : Int) ≤ -1))]
          rfl
        simp [hv]
  · intro s i id hne hnone
    simp only [setFrame]
    have horf : orFalsy (some id) s.currentSpritesheetId = some id := by
      rw [orFalsy, if_neg hne]
    rw [horf]
    rw [if_neg (by simp [jsTruthyOptStr, hne])]
    simp only [Option.getD_some]
    rw [hnone]
  · intro o h
    rw [createSprite, if_pos h]
  · intro o h
    rw [createSprite]
    by_cases hn : o.name = ""
    · rw [if_pos hn]
    · rw [if_neg hn, if_pos h]
  · intro o h
    rw [createSprite]
    by_cases hn : o.name = ""
    · rw [if_pos hn]
    · rw [if_neg hn]
      by_cases hw : o.width ≤ 0
      · rw [if_pos hw]
      · rw [if_neg hw, if_pos h]

/-- C8 witness: the failure cases evaluated on concrete inputs. -/
theorem failfast_no_mutation_witness :
    setFrame baseSprite (-1) none = (baseSprite, false) ∧
    setFrame baseSprite 0 (some "nosheet") = (baseSprite, false) ∧
    createSprite { name := "", width := 3, height := 3, help := false } = none ∧
    createSprite { name := "x", width := 0, height := 3, help := false } = none ∧
    createSprite { name := "x", width := 3, height := -1, help := false } = none :=
  ⟨failfast_no_mutation.1 baseSprite none,
   failfast_no_mutation.2.1 baseSprite 0 "nosheet" (by decide) (by decide),
   failfast_no_mutation.2.2.1 _ rfl,
   failfast_no_mutation.2.2.2.1 _ (by decide),
   failfast_no_mutation.2.2.2.2 _ (by decide)⟩

/-- C9: in the reference model, `getMemory`'s array copy allocates a
fresh reference distinct from the sprite's internal array, holding the
same records, and any in-place mutation `f` of the copy leaves the
original array unchanged. -/
theorem getMemory_independent_copy (st : MemStore) (memRef : Nat)
    (f : List PlayedAnimation → List PlayedAnimation)
    (h : memRef ∈ st.map (fun p => p.1)) :
    (getMemoryHeap st memRef).2 ≠ memRef ∧
    readRef (getMemoryHeap st memRef).1 (getMemoryHeap st memRef).2 =
      some ((readRef st memRef).getD []) ∧
    readRef (writeRef (getMemoryHeap st memRef).1 (getMemoryHeap st memRef).2
        (f ((readRef st memRef).getD []))) memRef = readRef st memRef := by
  have hlt := mem_keys_lt_freshRef st memRef h
  have hfresh : ∀ p ∈ st, p.1 ≠ freshRef st := by
    intro p hp heq
    have := mem_keys_lt_freshRef st p.1 (List.mem_map.mpr ⟨p, hp, rfl⟩)
    omega
  refine ⟨?_, ?_, ?_⟩
  · show freshRef st ≠ memRef
    omega
  · exact readRef_append_fresh st (freshRef st) _ hfresh
  · show readRef (writeRef (st ++ [(freshRef st, (readRef st memRef).getD [])])
        (freshRef st) (f ((readRef st memRef).getD []))) memRef = readRef st memRef
    rw [readRef_writeRef_ne _ _ _ _ (by omega : memRef ≠ freshRef st)]
    exact readRef_append_left st _ memRef (readRef_isSome_of_mem st memRef h)

/-- C9 witness: copying the singleton store, emptying the copy, and
observing the original array untouched. -/
theorem getMemory_independent_copy_witness :
    readRef (writeRef (getMemoryHeap [(0, [])] 0).1 (getMemoryHeap [(0, [])] 0).2
        ((fun _ => []) ((readRef ([(0, [])] : MemStore) 0).getD []))) 0 =
      readRef ([(0, [])] : MemStore) 0 :=
  (getMemory_independent_copy [(0, [])] 0 (fun _ => []) (by decide)).2.2

/-- C10: the numeric animation name `0` is falsy, so `stop(sprite, 0)`
takes the stop-all branch: it equals `stop(sprite)` and empties the
whole interval map; consequently a successful `play(sprite, 0)` leaves
`"0"` as the ONLY active interval — every other playing animation was
stopped.  (The hypothesis excludes `""` interval keys, on which the
source itself would recurse forever; see `stopAllGo`.) -/
theorem stop_zero_stops_all (now tid : Int) (s : Sprite) (lp : Option Bool)
    (hks : ∀ k ∈ s.activeIntervals.map (fun p => p.1), k ≠ "") :
    stop now s (some (AnimName.num 0)) = stop now s none ∧
    (stop now s (some (AnimName.num 0))).1.activeIntervals = [] ∧
    ((play now tid s (AnimName.num 0) lp).ok = true →
      (play now tid s (AnimName.num 0) lp).sprite.activeIntervals = [("0", tid)]) := by
  have hzero : stop now s (some (AnimName.num 0)) = stop now s none := rfl
  have hall : (stop now s (some (AnimName.num 0))).1.activeIntervals = [] := by
    rw [hzero]
    show (stopAllGo now _ s).1.activeIntervals = []
    rw [stopAllGo_intervals]
    exact foldl_mapDelete_all _ _ (fun p hp => List.mem_map.mpr ⟨p, hp, rfl⟩)
  refine ⟨hzero, hall, ?_⟩
  intro hok
  cases hfind : s.animations.find? (fun a => a.name = AnimName.num 0) with
  | none => simp [play, hfind] at hok
  | some a =>
    cases hsheet : getSpriteSheetForAnimation s a with
    | none => simp [play, hfind, hsheet] at hok
    | some sheet =>
      simp only [play, hfind, hsheet]
      show mapSet (stop now s (some (AnimName.num 0))).1.activeIntervals
        (animNameStr (AnimName.num 0)) tid = _
      rw [hall]
      rfl

/-- C10 witness: with "walk" and the animation named `0` both playing,
stopping `0` clears every interval. -/
theorem stop_zero_stops_all_witness :
    (stop 5 c10Sprite (some (AnimName.num 0))).1.activeIntervals = [] :=
  (stop_zero_stops_all 5 7 c10Sprite none (by decide)).2.1

/-- C6 counterexample: the sprite's only sheet is registered under the
id `""`, which is also the current sheet id, and the requested frame 0
is valid on it — every failure condition of the claim is absent — yet
`addAnimation` returns false (the falsy target id makes `getSheet`
return nothing), leaving the animation list unchanged. -/
theorem addAnimation_falsy_sheet_id_cex :
    c6Sprite.currentSpritesheetId = some "" ∧
    mapGet c6Sprite.spritesheets "" = some sheet1 ∧
    animFramesOf c6Opts = some [0] ∧
    (addAnimation c6Sprite c6Opts).2 = false ∧
    (addAnimation c6Sprite c6Opts).1.animations = [] := by decide

/-- C6 (amended): `addAnimation` returns false and leaves the animation
list unchanged exactly when the name already exists, or neither a frames
array nor an end bound is supplied, or no spritesheet is resolvable —
where resolution follows JS truthiness: a truthy explicit id is looked
up directly, and otherwise `getSheet`'s chain (current sheet id, else
first inserted key) is used with a falsy target id resolving to nothing
— or some derived frame lies outside [0, cells.length - 1]; on success
it appends the animation with `stopped = true`. -/
theorem addAnimation_spec (s : Sprite) (o : SpriteAnimationOptions) :
    ((addAnimation s o).2 = false ↔
      s.animations.any (fun a => a.name = o.name) = true ∨
      animFramesOf o = none ∨
      resolveSheetForAdd s o.spritesheet = none ∨
      (∃ fs sheet, animFramesOf o = some fs ∧
        resolveSheetForAdd s o.spritesheet = some sheet ∧
        fs.any (fun f => f < 0 ∨ f > (sheet.cells.length : Int) - 1) = true)) ∧
    ((addAnimation s o).2 = false → (addAnimation s o).1 = s) ∧
    ((addAnimation s o).2 = true →
      ∃ newAnim : SpriteAnimation,
        (addAnimation s o).1.animations = s.animations ++ [newAnim] ∧
        newAnim.name = o.name ∧ newAnim.stopped = true ∧
        animFramesOf o = some newAnim.frames) := by
  by_cases hdup : s.animations.any (fun a => a.name = o.name) = true
  · have heq : addAnimation s o = (s, false) := by
      simp only [addAnimation]
      rw [if_pos hdup]
    refine ⟨?_, fun _ => by rw [heq], fun htrue => ?_⟩
    · rw [heq]
      exact ⟨fun _ => Or.inl hdup, fun _ => rfl⟩
    · rw [heq] at htrue
      simp at htrue
  · cases hf : animFramesOf o with
    | none =>
      have heq : addAnimation s o = (s, false) := by
        simp only [addAnimation, hf]
        rw [if_neg hdup]
      refine ⟨?_, fun _ => by rw [heq], fun htrue => ?_⟩
      · rw [heq]
        exact ⟨fun _ => Or.inr (Or.inl rfl), fun _ => rfl⟩
      · rw [heq] at htrue
        simp at htrue
    | some fs =>
      cases hr : resolveSheetForAdd s o.spritesheet with
      | none =>
        have heq : addAnimation s o = (s, false) := by
          simp only [addAnimation, hf, hr]
          rw [if_neg hdup]
        refine ⟨?_, fun _ => by rw [heq], fun htrue => ?_⟩
        · rw [heq]
          exact ⟨fun _ => Or.inr (Or.inr (Or.inl rfl)), fun _ => rfl⟩
        · rw [heq] at htrue
          simp at htrue
      | some sheet =>
        by_cases hinv : fs.any (fun f => f < 0 ∨ f > (sheet.cells.length : Int) - 1) = true
        · have heq : addAnimation s o = (s, false) := by
            simp only [addAnimation, hf, hr]
            rw [if_neg hdup, if_pos hinv]
          refine ⟨?_, fun _ => by rw [heq], fun htrue => ?_⟩
          · rw [heq]
            exact ⟨fun _ => Or.inr (Or.inr (Or.inr ⟨fs, sheet, rfl, rfl, hinv⟩)),
              fun _ => rfl⟩
          · rw [heq] at htrue
            simp at htrue
        · have heq : addAnimation s o =
              ({ s with animations := s.animations ++
                [{ name := o.name, start := o.start.getD 0,
                   endFrame := jsOrInt o.endFrame (o.start.getD 0 + (fs.length : Int) - 1),
                   frames := fs, speed := o.speed.getD 100, stopped := true,
                   loop := o.loop.getD false,
                   spritesheet := if jsTruthyOptStr o.spritesheet then o.spritesheet
                     else none }] }, true) := by
            simp only [addAnimation, hf, hr]
            rw [if_neg hdup, if_neg hinv]
          refine ⟨?_, fun hfalse => ?_, fun _ => ?_⟩
          · rw [heq]
            constructor
            · intro h
              simp at h
            · rintro (h | h | h | ⟨fs2, sheet2, hf2, hr2, hinv2⟩)
              · exact absurd h hdup
              · cases h
              · cases h
              · injection hf2 with he
                subst he
                injection hr2 with he2
                subst he2
                exact absurd hinv2 hinv
          · rw [heq] at hfalse
            simp at hfalse
          · rw [heq]
            exact ⟨_, rfl, rfl, rfl, rfl⟩

/-- C6 witness: on a sprite whose current sheet id is truthy and covers
the requested frame, registration succeeds and appends in the stopped
state. -/
theorem addAnimation_spec_witness :
    (addAnimation c1Sprite c6Opts).2 = true →
      ∃ newAnim : SpriteAnimation,
        (addAnimation c1Sprite c6Opts).1.animations = c1Sprite.animations ++ [newAnim] ∧
        newAnim.name = c6Opts.name ∧ newAnim.stopped = true ∧
        animFramesOf c6Opts = some newAnim.frames :=
  (addAnimation_spec c1Sprite c6Opts).2.2

/-- C7 counterexample: the explicit `columns = 0` option is falsy in JS,
so it does NOT "win outright": instead of being rejected (0 ≤ 0 would
yield null), the call falls back to the floor computation and succeeds
with 4 auto-detected columns. -/
theorem addSheet_zero_columns_cex :
    c7Opts.columns = some 0 ∧
    (addSheet baseSprite "/img.png" c7Opts { width := 128, height := 64 }).2 = some "s" ∧
    (mapGet (addSheet baseSprite "/img.png" c7Opts
        { width := 128, height := 64 }).1.spritesheets "s").map (fun sh => sh.columns) =
      some 4 := by decide

/-- C7 (amended): `addSheet` computes `columns = floor(imageWidth /
cellWidth)` and `rows = floor(imageHeight / cellHeight)` when the
explicit option is absent OR the falsy value 0 (an explicit NONZERO
value wins outright); it returns null and inserts no sheet when the
resulting columns or rows is ≤ 0; otherwise it inserts a sheet whose
`columns * rows` cells are in row-major order with the cell at
`(row, col)` carrying the source url and the negated offsets
`(-col*cellWidth, -row*cellHeight)` — frame 0 is the top-left cell. -/
theorem addSheet_grid_spec (s : Sprite) (url : String) (opts : SheetOptions)
    (dims : ImageDim) :
    (∀ c, opts.columns = some c → c ≠ 0 → calculatedColumns s opts dims = c) ∧
    ((opts.columns = none ∨ opts.columns = some 0) →
      calculatedColumns s opts dims = Int.fdiv dims.width (finalCellWidth s opts)) ∧
    (∀ r, opts.rows = some r → r ≠ 0 → calculatedRows s opts dims = r) ∧
    ((opts.rows = none ∨ opts.rows = some 0) →
      calculatedRows s opts dims = Int.fdiv dims.height (finalCellHeight s opts)) ∧
    (calculatedColumns s opts dims ≤ 0 ∨ calculatedRows s opts dims ≤ 0 →
      addSheet s url opts dims = (s, none)) ∧
    (0 < calculatedColumns s opts dims → 0 < calculatedRows s opts dims →
      (addSheet s url opts dims).2 = some opts.id ∧
      ∃ sheet, mapGet (addSheet s url opts dims).1.spritesheets opts.id = some sheet ∧
        sheet.spritesheet = url ∧
        sheet.columns = calculatedColumns s opts dims ∧
        sheet.rows = calculatedRows s opts dims ∧
        sheet.width = finalCellWidth s opts ∧
        sheet.height = finalCellHeight s opts ∧
        sheet.cells.length =
          (calculatedRows s opts dims).toNat * (calculatedColumns s opts dims).toNat ∧
        (∀ row col : Nat, row < (calculatedRows s opts dims).toNat →
          col < (calculatedColumns s opts dims).toNat →
          sheet.cells.get? (row * (calculatedColumns s opts dims).toNat + col) =
            some { url := url
                   x := -((col : Int) * finalCellWidth s opts)
                   y := -((row : Int) * finalCellHeight s opts) })) := by
  refine ⟨?_, ?_, ?_, ?_, ?_, ?_⟩
  · intro c hc hne
    rw [calculatedColumns, hc, jsOrInt, if_neg hne]
  · intro hc
    rcases hc with hc | hc <;> rw [calculatedColumns, hc, jsOrInt]
    rw [if_pos rfl]
  · intro r hr hne
    rw [calculatedRows, hr, jsOrInt, if_neg hne]
  · intro hr
    rcases hr with hr | hr <;> rw [calculatedRows, hr, jsOrInt]
    rw [if_pos rfl]
  · intro h
    rw [addSheet, if_pos h]
  · intro hc hr
    have hbranch : (addSheet s url opts dims).1.spritesheets =
        mapSet s.spritesheets opts.id (builtSheet s url opts dims) := by
      rw [addSheet, if_neg (by omega)]
      simp only []
      split <;> rfl
    have hres : (addSheet s url opts dims).2 = some opts.id := by
      rw [addSheet, if_neg (by omega)]
    refine ⟨hres, builtSheet s url opts dims, ?_, rfl, rfl, rfl, rfl, rfl, ?_, ?_⟩
    · rw [hbranch]
      exact mapGet_mapSet_self _ _ _
    · show (createSpriteCells
        { spritesheet := url, columns := calculatedColumns s opts dims,
          rows := calculatedRows s opts dims, width := finalCellWidth s opts,
          height := finalCellHeight s opts, cells := [] }).length = _
      simp only [createSpriteCells]
      exact flatMapRange_length _ _ _
    · intro row col hrow hcol
      show (createSpriteCells
        { spritesheet := url, columns := calculatedColumns s opts dims,
          rows := calculatedRows s opts dims, width := finalCellWidth s opts,
          height := finalCellHeight s opts, cells := [] }).get? _ = _
      simp only [createSpriteCells]
      exact flatMapRange_get _ _ _ row col hrow hcol

/-- C5 counterexample: `play` succeeds for "walk" (its frame list [3]
is resolved against the CURRENT one-cell sheet "b", not the sheet it was
registered against), but the very first tick does not "display the frame
at the cursor, update currentFrame, and advance the cursor" as the claim
states unconditionally: the defensive bounds re-check fails, the tick
displays nothing, leaves `currentFrame` and the cursor untouched, and
self-stops the animation. -/
theorem play_tick_invalid_frame_cex :
    (play 100 7 c5Sprite (AnimName.str "walk") none).ok = true ∧
    (play 100 7 c5Sprite (AnimName.str "walk") none).ctx = some c5Ctx ∧
    (tick 200 c5Ctx 0 (play 100 7 c5Sprite (AnimName.str "walk") none).sprite).sprite.currentFrame
      = none ∧
    (tick 200 c5Ctx 0 (play 100 7 c5Sprite (AnimName.str "walk") none).sprite).sprite.element.background
      = none ∧
    (tick 200 c5Ctx 0 (play 100 7 c5Sprite (AnimName.str "walk") none).sprite).nextFrameIndex
      = 0 ∧
    (tick 200 c5Ctx 0 (play 100 7 c5Sprite (AnimName.str "walk") none).sprite).running
      = false := by decide

/-- C5 (amended): `play` returns false and starts no timer exactly when
the animation is missing or no sheet resolves for it (bound id, else
current, else first); on failure the sprite is untouched.  On success it
routes through `stop` for that name, appends a history record with
length 0 and the effective loop flag (explicit override, else the
animation's default), clears `stopped`, and registers the timer; each
tick, PROVIDED the frame at the cursor is a valid index of the resolved
sheet, displays that frame, updates `currentFrame` and advances the
cursor, wrapping to 0 on exhaustion when the effective loop flag is set
and otherwise stopping the animation; on an invalid frame the tick
displays nothing and stops the animation instead. -/
theorem play_spec (now tid : Int) (s : Sprite) (name : AnimName) (lp : Option Bool) :
    ((play now tid s name lp).ok = false ↔
      s.animations.find? (fun a => a.name = name) = none ∨
      ∃ a, s.animations.find? (fun a2 => a2.name = name) = some a ∧
        getSpriteSheetForAnimation s a = none) ∧
    ((play now tid s name lp).ok = false →
      play now tid s name lp = { sprite := s, ok := false, ctx := none, firedCallbacks := [] }) ∧
    (∀ a sheet, s.animations.find? (fun a2 => a2.name = name) = some a →
      getSpriteSheetForAnimation s a = some sheet →
      (play now tid s name lp).ok = true ∧
      (play now tid s name lp).ctx = some {
          frames := a.frames, speed := a.speed, sheet := sheet,
          shouldLoop := lp.getD a.loop, animationName := name } ∧
      (play now tid s name lp).sprite.memory.playedAnimations =
        (stop now s (some name)).1.memory.playedAnimations ++
          [{ name := animNameStr name, timestamp := now, length := 0,
             looped := lp.getD a.loop }] ∧
      (play now tid s name lp).sprite.activeIntervals =
        mapSet (stop now s (some name)).1.activeIntervals (animNameStr name) tid ∧
      (play now tid s name lp).sprite.lastPlayedAnimation = some (animNameStr name) ∧
      ((play now tid s name lp).sprite.animations.find?
          (fun a2 => a2.name = name)).map (fun a2 => a2.stopped) = some false) ∧
    (∀ (ctx : TickCtx) (fi : Nat) (cf : Int) (s2 : Sprite),
      ctx.frames.get? fi = some cf →
      validateFrameIndex cf ctx.sheet = true →
      (fi + 1 < ctx.frames.length →
        tick now ctx fi s2 = {
          sprite := tickDisplay ctx cf s2, nextFrameIndex := fi + 1,
          firedCallbacks := [], running := true }) ∧
      (ctx.frames.length ≤ fi + 1 → ctx.shouldLoop = true →
        tick now ctx fi s2 = {
          sprite := tickDisplay ctx cf s2, nextFrameIndex := 0,
          firedCallbacks := [], running := true }) ∧
      (ctx.frames.length ≤ fi + 1 → ctx.shouldLoop = false →
        tick now ctx fi s2 = {
          sprite := (stop now (tickDisplay ctx cf s2) (some ctx.animationName)).1,
          nextFrameIndex := fi + 1,
          firedCallbacks := (stop now (tickDisplay ctx cf s2) (some ctx.animationName)).2,
          running := false })) ∧
    (∀ (ctx : TickCtx) (fi : Nat) (s2 : Sprite),
      (∀ cf, ctx.frames.get? fi = some cf → validateFrameIndex cf ctx.sheet = false) →
      tick now ctx fi s2 = {
        sprite := (stop now s2 (some ctx.animationName)).1,
        nextFrameIndex := fi, firedCallbacks := (stop now s2 (some ctx.animationName)).2,
        running := false }) := by
  refine ⟨?_, ?_, ?_, ?_, ?_⟩
  · cases hfind : s.animations.find? (fun a => a.name = name) with
    | none => simp [play, hfind]
    | some a =>
      cases hsheet : getSpriteSheetForAnimation s a with
      | none => simp [play, hfind, hsheet]
      | some sheet => simp [play, hfind, hsheet]
  · intro hok
    cases hfind : s.animations.find? (fun a => a.name = name) with
    | none => simp [play, hfind]
    | some a =>
      cases hsheet : getSpriteSheetForAnimation s a with
      | none => simp [play, hfind, hsheet]
      | some sheet => simp [play, hfind, hsheet] at hok
  · intro a sheet hfind hsheet
    have hstopfound : ((stop now s (some name)).1.animations.find?
        (fun a2 => a2.name = name)).isSome = true := by
      rw [stop_find_isSome, hfind]
      rfl
    cases lp with
    | none =>
      refine ⟨by simp [play, hfind, hsheet], by simp [play, hfind, hsheet],
        by simp [play, hfind, hsheet], by simp [play, hfind, hsheet],
        by simp [play, hfind, hsheet], ?_⟩
      have hanims : (play now tid s name none).sprite.animations =
          setStoppedFirst false (stop now s (some name)).1.animations name := by
        simp [play, hfind, hsheet]
      rw [hanims, find?_setStoppedFirst_same]
      obtain ⟨b, hb⟩ := Option.isSome_iff_exists.mp hstopfound
      rw [hb]
      rfl
    | some lb =>
      refine ⟨by simp [play, hfind, hsheet], by simp [play, hfind, hsheet],
        by simp [play, hfind, hsheet], by simp [play, hfind, hsheet],
        by simp [play, hfind, hsheet], ?_⟩
      have hanims : (play now tid s name (some lb)).sprite.animations =
          setStoppedFirst false (stop now s (some name)).1.animations name := by
        simp [play, hfind, hsheet]
      rw [hanims, find?_setStoppedFirst_same]
      obtain ⟨b, hb⟩ := Option.isSome_iff_exists.mp hstopfound
      rw [hb]
      rfl
  · intro ctx fi cf s2 hget hval
    refine ⟨?_, ?_, ?_⟩
    · intro hlt
      simp only [tick, hget]
      rw [if_neg (by simp [hval])]
      rw [if_neg (by omega)]
    · intro hge hloop
      simp only [tick, hget]
      rw [if_neg (by simp [hval])]
      rw [if_pos hge, if_pos hloop]
    · intro hge hloop
      simp only [tick, hget]
      rw [if_neg (by simp [hval])]
      rw [if_pos hge, if_neg (by simp [hloop])]
  · intro ctx fi s2 hinv
    cases hget : ctx.frames.get? fi with
    | none => simp only [tick, hget]
    | some cf =>
      simp only [tick, hget]
      rw [if_pos (hinv cf hget)]

/-- C5 witness: the success clause instantiated on the concrete sprite:
`play` reports success. -/
theorem play_spec_witness :
    (play 100 7 c5Sprite (AnimName.str "walk") none).ok = true :=
  ((play_spec 100 7 c5Sprite (AnimName.str "walk") none).2.2.1 walkAnim sheet1
    (by decide) (by decide)).1

/-- C7 witness: auto-detection on a 128 by 64 image with 32-pixel cells
yields the sheet id back. -/
theorem addSheet_grid_spec_witness :
    (addSheet baseSprite "/img.png"
      { columns := none, rows := none, cellWidth := none, cellHeight := none,
        cellSize := none, id := "w" } { width := 128, height := 64 }).2 = some "w" :=
  ((addSheet_grid_spec baseSprite "/img.png"
      { columns := none, rows := none, cellWidth := none, cellHeight := none,
        cellSize := none, id := "w" } { width := 128, height := 64 }).2.2.2.2.2
    (by decide) (by decide)).1

end SpriteTs
